import Mathlib

/-!
Verification of the pdf2any document-processing pipeline (src/app) against its
natural-language specification.

The embedding models:
* `PyVal` — dynamically typed Python values (the duck-typed payloads flowing
  between the extraction, reconciliation and rendering steps of
  `src/app/processing.py`);
* the normalization of the Gemini extraction response
  (`extract_with_gemini`, lines 337-388 of `src/app/processing.py`);
* the reconciliation policy (`reconcile_with_gemini`);
* the spreadsheet renderer (`_write_excel_sheets`);
* the task ledger (`src/app/tasks.py`) and the orchestrator traces
  (`src/app/workflow_manager.py`, upload flow of `src/app/main.py`).
-/

namespace Pdf2Any

/-- A dynamically typed Python value, as passed around by the pipeline. -/
inductive PyVal where
  | pynone : PyVal
  | pybool : Bool → PyVal
  | pyint : Int → PyVal
  | pystr : String → PyVal
  | pylist : List PyVal → PyVal
  | pydict : List (String × PyVal) → PyVal

namespace PyVal

/-- Python truthiness (`if x:`). -/
def truthy : PyVal → Bool
  | .pynone => false
  | .pybool b => b
  | .pyint n => n != 0
  | .pystr s => s != ""
  | .pylist xs => !xs.isEmpty
  | .pydict fs => !fs.isEmpty

def isDict : PyVal → Bool
  | .pydict _ => true
  | _ => false

def isList : PyVal → Bool
  | .pylist _ => true
  | _ => false

end PyVal

/-- Look up a key in an association list modelling a Python dict
(first matching key; Python dicts have unique keys). -/
def lget {α : Type} : List (String × α) → String → Option α
  | [], _ => none
  | (k, v) :: rest, key => if k = key then some v else lget rest key

/-- Python dict assignment `d[k] = v`: replaces the value in place when the key
exists (keeping its position, as Python dicts preserve insertion order),
otherwise appends the new binding. -/
def lset {α : Type} : List (String × α) → String → α → List (String × α)
  | [], key, v => [(key, v)]
  | (k, w) :: rest, key, v =>
      if k = key then (k, v) :: rest else (k, w) :: lset rest key v

/-- Python `k in d`. -/
def lmem {α : Type} (d : List (String × α)) (key : String) : Bool :=
  (lget d key).isSome

/-- Python `del d[k]` (removes the first binding for the key). -/
def ldel {α : Type} : List (String × α) → String → List (String × α)
  | [], _ => []
  | (k, v) :: rest, key => if k = key then rest else (k, v) :: ldel rest key

mutual

/-- Python `repr()` of a value (string escaping is simplified to plain
quoting; no claim evaluates `repr` on a string containing quotes). -/
def pyRepr : PyVal → String
  | .pynone => "None"
  | .pybool b => if b then "True" else "False"
  | .pyint n => toString n
  | .pystr s => "\x27" ++ s ++ "\x27"
  | .pylist xs => "[" ++ pyReprList xs ++ "]"
  | .pydict fs => "\x7b" ++ pyReprFields fs ++ "\x7d"

def pyReprList : List PyVal → String
  | [] => ""
  | [x] => pyRepr x
  | x :: xs => pyRepr x ++ ", " ++ pyReprList xs

def pyReprFields : List (String × PyVal) → String
  | [] => ""
  | [(k, v)] => "\x27" ++ k ++ "\x27: " ++ pyRepr v
  | (k, v) :: fs => "\x27" ++ k ++ "\x27: " ++ pyRepr v ++ ", " ++ pyReprFields fs

end

/-- Python `str()` of a value: the string itself for strings, `repr`-style
rendering for containers and scalars. -/
def pyStr : PyVal → String
  | .pystr s => s
  | v => pyRepr v

/-! ## Extraction normalization (`extract_with_gemini`, processing.py 337-388)

`extract_with_gemini` receives `response_data` from the LLM client and
normalizes it before returning.  The repair applied to a mapping response
(lines 341-357, and identically lines 370-373 for a mapping recovered from a
JSON string) ensures the four canonical fields exist and that `tables` is a
sequence. -/

/-- Lines 341-357 / 370-373: force `tables` to a list when missing or not a
list, then insert empty defaults for `metadata`, `key_value_pairs` and
`text_sections` when the keys are absent. -/
def repairMapping (fields : List (String × PyVal)) : List (String × PyVal) :=
  let f1 := match lget fields "tables" with
    | some (.pylist _) => fields
    | _ => lset fields "tables" (.pylist [])
  let f2 := if lmem f1 "metadata" then f1 else lset f1 "metadata" (.pydict [])
  let f3 := if lmem f2 "key_value_pairs" then f2
            else lset f2 "key_value_pairs" (.pydict [])
  if lmem f3 "text_sections" then f3 else lset f3 "text_sections" (.pydict [])

/-- Lines 379-384: the default structure returned for a response that is
neither a mapping nor a string that parses as JSON. -/
def fallbackResponse (resp : PyVal) : PyVal :=
  .pydict [("metadata", .pydict [("error", .pystr "Unexpected response type")]),
           ("key_value_pairs", .pydict [("raw_response", .pystr (pyStr resp))]),
           ("text_sections", .pydict []),
           ("tables", .pylist [])]

/-- The normalization step of `extract_with_gemini` (lines 337-388), applied
to the raw `response_data`.  `jsonLoads` is the external `json.loads`
capability: `some v` models a successful parse producing `v`, `none` models
`json.JSONDecodeError`.

* a mapping is repaired and returned (lines 337-359);
* a string that parses as a JSON mapping is repaired and returned
  (lines 365-374);
* a string that parses as JSON but not as a mapping reaches
  `parsed_data.get("tables")` on a non-mapping (line 370), which raises
  `AttributeError`; only `json.JSONDecodeError` is handled there, so the
  exception escapes to the handler at line 386 and the function raises
  `Exception("Gemini extraction failed for <uri>")`;
* a string that does not parse as JSON, and any other non-mapping value,
  yields the fallback structure (lines 378-384). -/
def normalizeExtractResponse (jsonLoads : String → Option PyVal)
    (gcs_uri : String) (resp : PyVal) : Except String PyVal :=
  match resp with
  | .pydict fields => .ok (.pydict (repairMapping fields))
  | .pystr s =>
      match jsonLoads s with
      | some (.pydict fields) => .ok (.pydict (repairMapping fields))
      | some _ => .error ("Gemini extraction failed for " ++ gcs_uri)
      | none => .ok (fallbackResponse (.pystr s))
  | v => .ok (fallbackResponse v)

/-- Models `json.loads` for the concrete strings used in the theorems below:
`"[1, 2]"` is valid JSON and parses to the list `[1, 2]`; every other string
used in this development (plain prose such as `"Nome: Ana\nIdade: 30"`) is
not valid JSON and raises `json.JSONDecodeError`, modelled as `none`. -/
def jsonLoadsModel (s : String) : Option PyVal :=
  if s = "[1, 2]" then some (.pylist [.pyint 1, .pyint 2]) else none

/-! ## Reconciliation (`reconcile_with_gemini`, processing.py 391-429)

After the availability guards, the function serializes its input for a prompt
and truncates the OCR text (side-effect-free locals), then at line 429
unconditionally executes `return extracted_json`.  Lines 431-562 are
unreachable.  The two leading guards raise `ImportError` when the Gemini
client or the types module failed to initialize; they are modelled by the two
Boolean capability flags. -/
def reconcile_with_gemini (geminiReady typesReady : Bool)
    (extracted_json : PyVal) (ocr_text : String) : Except String PyVal :=
  if !geminiReady then .error "GeminiClient not initialized."
  else if !typesReady then .error "google.generativeai.types not available."
  else .ok extracted_json

/-! ## Spreadsheet rendering (`_write_excel_sheets`, processing.py 565-666)

A rendered artifact is modelled as the ordered list of sheets the pandas
`ExcelWriter` ends up holding; each sheet is a name together with a cell grid
(header row first).  The pandas openpyxl writer keeps a `sheets` map from name to
worksheet: a `to_excel` call with a name already present writes its cells into
the existing worksheet (overwriting positionally, leaving untouched cells from
the earlier write in place) instead of creating a new sheet. -/

/-- One sheet of the artifact: name and cell grid, header row first. -/
abbrev Sheet := String × List (List PyVal)

/-- Positional cell overwrite of one row (new cells win, surplus old cells
remain). -/
def overlayRow (old new : List PyVal) : List PyVal :=
  new ++ old.drop new.length

/-- Positional cell overwrite of a grid. -/
def overlayGrid : List (List PyVal) → List (List PyVal) → List (List PyVal)
  | old, [] => old
  | [], new => new
  | o :: os, n :: ns => overlayRow o n :: overlayGrid os ns

/-- Models `DataFrame.to_excel(writer, sheet_name, index=False)`: reuse the existing
worksheet when the name is taken (overwriting cells positionally), otherwise
append a new sheet. -/
def writeSheet : List Sheet → String → List (List PyVal) → List Sheet
  | [], name, grid => [(name, grid)]
  | (n, g) :: rest, name, grid =>
      if n = name then (n, overlayGrid g grid) :: rest
      else (n, g) :: writeSheet rest name grid

/-- Line 628: replace non-alphanumeric characters by underscores and truncate
to 31 characters (`str.isalnum` modelled by `Char.isAlphanum`; all titles in
this development are ASCII). -/
def sanitizeSheetName (title : String) : String :=
  String.mk ((title.data.map (fun c => if c.isAlphanum then c else '_')).take 31)

/-- The column count `pd.DataFrame` infers from a list of row lists: the
widest row (shorter rows are padded with `None`). -/
def maxRowWidth (rows : List (List PyVal)) : Nat :=
  rows.foldl (fun m r => max m r.length) 0

/-- Like `pd.DataFrame`: pad a short row with `None` up to the inferred width. -/
def padRow (w : Nat) (r : List PyVal) : List PyVal :=
  r ++ List.replicate (w - r.length) PyVal.pynone

/-- Lines 604-651: process one entry of the `tables` list.  The entry is kept
only if it is a mapping with a list under `headers` and a non-empty list under
`rows`; non-list rows are dropped (lines 615-620); a table with no surviving
rows is skipped (lines 622-624); `pd.DataFrame(valid_rows, columns=headers)`
raises `ValueError` when the inferred column count differs from
`len(headers)`, which the handler at line 648 turns into skipping the sheet;
otherwise the sheet is written under the sanitized title. -/
def writeOneTable (acc : List Sheet) (i : Nat) (t : PyVal) : List Sheet :=
  match t with
  | .pydict tf =>
    match lget tf "headers", lget tf "rows" with
    | some (.pylist headers), some (.pylist rows) =>
      if rows.isEmpty then acc
      else
        let validRows := rows.filterMap (fun r =>
          match r with
          | .pylist cells => some cells
          | _ => none)
        if validRows.isEmpty then acc
        else
          let rawTitle := match lget tf "table_title" with
            | some v => pyStr v
            | none => "Table_" ++ toString (i + 1)
          if maxRowWidth validRows = headers.length then
            writeSheet acc (sanitizeSheetName rawTitle)
              (headers :: validRows.map (padRow headers.length))
          else acc
    | _, _ => acc
  | _ => acc

/-- The loop over the `tables` entry of `data` with its running index. -/
def writeTables (acc : List Sheet) (i : Nat) : List PyVal → List Sheet
  | [] => acc
  | t :: rest => writeTables (writeOneTable acc i t) (i + 1) rest

/-- Lines 573-586: build the Summary entries.  A fresh dict is populated from
`metadata` (keys prefixed with `meta_`, `raw_response` excluded) and then from
`key_value_pairs` (`raw_response` excluded), with Python dict-update
semantics. -/
def summaryItems (data : List (String × PyVal)) : List (String × PyVal) :=
  let fromMeta :=
    if !data.isEmpty then
      match lget data "metadata" with
      | some (.pydict m) =>
          (m.filter (fun kv => kv.1 != "raw_response")).map
            (fun kv => ("meta_" ++ kv.1, kv.2))
      | _ => []
    else []
  let fromKv :=
    if !data.isEmpty then
      match lget data "key_value_pairs" with
      | some (.pydict kvs) => kvs.filter (fun kv => kv.1 != "raw_response")
      | _ => []
    else []
  (fromMeta ++ fromKv).foldl (fun acc kv => lset acc kv.1 kv.2) []

/-- Function `_write_excel_sheets` (lines 565-659), as the list of sheets of the
resulting artifact.  The caller (`generate_excel`) guarantees `data` is a
mapping; the surrounding `ExcelWriter` I/O (and its possible I/O failure) is
outside the embedding, as is the column-width cosmetics of lines 638-644. -/
def writeExcelSheets (data : List (String × PyVal)) : List Sheet :=
  let summary := summaryItems data
  let acc1 : List Sheet :=
    if !summary.isEmpty then
      writeSheet [] "Summary"
        ([.pystr "Field", .pystr "Value"] :: summary.map (fun kv => [.pystr kv.1, kv.2]))
    else []
  let acc2 :=
    if !data.isEmpty then
      match lget data "text_sections" with
      | some (.pydict ts) =>
          if !ts.isEmpty then
            writeSheet acc1 "Text Sections"
              ([.pystr "Section Title", .pystr "Text"] ::
                ts.map (fun kv => [.pystr kv.1, kv.2]))
          else acc1
      | _ => acc1
    else acc1
  let acc3 :=
    if !data.isEmpty then
      match lget data "tables" with
      | some (.pylist ts) => writeTables acc2 0 ts
      | _ => acc2
    else acc2
  if acc3.isEmpty then
    [("Info", [[.pystr "Status"], [.pystr "No structured data extracted or processed"]])]
  else acc3

/-! ## Task ledger (`src/app/tasks.py`)

The module-level `task_status` dict is modelled as an association list of task
records; `datetime.datetime.now()` timestamps are modelled by a monotone
counter carried in the ledger.  Key presence of the optional record fields is
modelled with `Option` (`del` of the `error` key becomes `none`; the only
reader of key presence is the `del` guard itself). -/

/-- One entry of the `task_status` dict.  The `logs` list is created on
demand by `add_task_log` in the source; here it is always present, starting
empty, which is observationally equivalent. -/
structure TaskRec where
  status : String := ""
  filename : Option String := none
  result_file : Option String := none
  gcs_uri : Option String := none
  error : Option String := none
  logs : List (Nat × String) := []
deriving DecidableEq, Repr

/-- The shared in-memory store plus the timestamp counter. -/
structure Ledger where
  tasks : List (String × TaskRec) := []
  now : Nat := 0
deriving DecidableEq, Repr

/-- Python truthiness of an optional string argument (`if filename:`):
`None` and the empty string are falsy. -/
def optTruthy : Option String → Bool
  | some s => s != ""
  | none => false

/-- Function `tasks.add_task_log` (lines 47-61): a silent no-op when the task id is
unknown; otherwise appends a (timestamp, message) entry to the log of the task. -/
def add_task_log (l : Ledger) (task_id message : String) : Ledger :=
  match lget l.tasks task_id with
  | none => l
  | some r =>
      { tasks := lset l.tasks task_id { r with logs := r.logs ++ [(l.now, message)] },
        now := l.now + 1 }

/-- Function `tasks.update_task_status` (lines 8-31): ensure the entry exists, set the
status, conditionally set `filename` / `result_file` / `gcs_uri`; a truthy
`error` is stored and logged as `ERROR: ...`, otherwise the stored error is
cleared unless the new status is `failed`; finally the status change itself is
logged. -/
def update_task_status (l : Ledger) (task_id status : String)
    (filename result_file error gcs_uri : Option String) : Ledger :=
  let r0 := (lget l.tasks task_id).getD {}
  let r1 := { r0 with status := status }
  let r2 := if optTruthy filename then { r1 with filename := filename } else r1
  let r3 := if optTruthy result_file then { r2 with result_file := result_file } else r2
  let r4 := if optTruthy gcs_uri then { r3 with gcs_uri := gcs_uri } else r3
  let r5 :=
    if optTruthy error then { r4 with error := error }
    else if status != "failed" then { r4 with error := none } else r4
  let l1 := { l with tasks := lset l.tasks task_id r5 }
  let l2 :=
    if optTruthy error then add_task_log l1 task_id ("ERROR: " ++ error.getD "")
    else l1
  add_task_log l2 task_id ("Status changed to: " ++ status)

/-- Function `tasks.init_task` (lines 37-45): overwrite the entry with a fresh record
in status `received` and an empty log, then log the initialization. -/
def init_task (l : Ledger) (task_id filename : String) : Ledger :=
  let r : TaskRec :=
    { status := "received", filename := some filename, result_file := none, logs := [] }
  let l1 := { l with tasks := lset l.tasks task_id r }
  add_task_log l1 task_id ("Task initialized with file: " ++ filename)

/-- Function `tasks.get_task_status` (lines 33-35). -/
def get_task_status (l : Ledger) (task_id : String) : Option TaskRec :=
  lget l.tasks task_id

/-- Endpoint `download_result_endpoint` (`src/app/main.py` 100-125) up to its ledger
preconditions: 404 for an unknown task, 400 when the task is not completed or
has no result file.  The subsequent `os.path.exists` check is filesystem
state outside the embedding; the claims below use only the error branches. -/
def download_result (l : Ledger) (task_id : String) : Except (Nat × String) String :=
  match lget l.tasks task_id with
  | none => .error (404, "Task ID not found.")
  | some r =>
      if r.status != "completed" || !optTruthy r.result_file then
        .error (400, "Processing not complete or result file not available.")
      else .ok (r.result_file.getD "")

/-! ## Orchestrator traces (`src/app/workflow_manager.py`, `src/app/main.py`)

The pipeline is a straight-line coroutine whose only failure points are the
four awaited capability calls (OCR, extraction, reconciliation, report
generation); each capability outcome is a parameter (`Except` message for a
raised exception).  The ledger operations a run performs are reified as a
list of `LOp`, so the same trace serves both the status-sequence claims and
the final-ledger claims.  Within one task the operations are sequential: the
upload handler runs to completion (the coroutine spawned by
`asyncio.create_task` is only scheduled) before the workflow coroutine
starts. -/

/-- A ledger operation performed by the system on one task. -/
inductive LOp where
  | initTask (filename : String)
  | logMsg (message : String)
  | setStatus (status : String) (filename result_file error gcs_uri : Option String)
deriving DecidableEq, Repr

def LOp.isInitTask : LOp → Bool
  | .initTask _ => true
  | _ => false

/-- Apply one operation to the ledger. -/
def runOp (l : Ledger) (task_id : String) : LOp → Ledger
  | .initTask fn => init_task l task_id fn
  | .logMsg m => add_task_log l task_id m
  | .setStatus st fn rf er gu => update_task_status l task_id st fn rf er gu

/-- Apply a sequence of operations. -/
def runOps (l : Ledger) (task_id : String) (ops : List LOp) : Ledger :=
  ops.foldl (fun acc op => runOp acc task_id op) l

def countDictAt (fs : List (String × PyVal)) (key : String) : Nat :=
  match lget fs key with
  | some (.pydict m) => m.length
  | _ => 0

def countListAt (fs : List (String × PyVal)) (key : String) : Nat :=
  match lget fs key with
  | some (.pylist xs) => xs.length
  | _ => 0

/-- The progress line of `workflow_manager.py` lines 50-58 (the extraction
result is always a mapping, see `extract_with_gemini`). -/
def extractDoneMsg (fs : List (String × PyVal)) : String :=
  if !fs.isEmpty then
    "Gemini extraction completed. Found " ++ toString (countDictAt fs "metadata")
      ++ " metadata items, " ++ toString (countDictAt fs "key_value_pairs")
      ++ " key-value pairs, " ++ toString (countDictAt fs "text_sections")
      ++ " text sections, and " ++ toString (countListAt fs "tables") ++ " tables."
  else "Gemini extraction completed but no structured data was returned."

/-- The progress line of `workflow_manager.py` lines 68-76. -/
def reconcileDoneMsg (fs : List (String × PyVal)) : String :=
  if !fs.isEmpty then
    "Gemini reconciliation completed. Final data has " ++ toString (countDictAt fs "metadata")
      ++ " metadata items, " ++ toString (countDictAt fs "key_value_pairs")
      ++ " key-value pairs, " ++ toString (countDictAt fs "text_sections")
      ++ " text sections, and " ++ toString (countListAt fs "tables") ++ " tables."
  else "Gemini reconciliation completed but no structured data was returned."

/-- The `except` clause of `process_pdf` (lines 91-96): one log line and one
transition to `failed` carrying the causing message. -/
def failOps (e : String) : List LOp :=
  [.logMsg ("Workflow failed: " ++ e),
   .setStatus "failed" none none (some e) none]

/-- The ledger operations `process_pdf` (workflow_manager.py 22-96) performs,
as a function of the four capability outcomes.  Any capability exception
falls through to the single `except` boundary. -/
def processPdfOps (gcs_uri : String) (ocr : Except String String)
    (ext rcn : Except String (List (String × PyVal)))
    (gen : Except String String) : List LOp :=
  [.logMsg ("Starting workflow with GCS URI: " ++ gcs_uri),
   .setStatus "processing_ocr" none none none none,
   .logMsg "Starting OCR processing..."] ++
  match ocr with
  | .error e => failOps e
  | .ok ocrText =>
    [.logMsg ("OCR completed successfully. Extracted " ++ toString ocrText.length
        ++ " characters."),
     .setStatus "processing_gemini_extract" none none none none,
     .logMsg "Starting Gemini extraction..."] ++
    match ext with
    | .error e => failOps e
    | .ok fs =>
      [.logMsg (extractDoneMsg fs),
       .setStatus "processing_reconciliation" none none none none,
       .logMsg "Starting Gemini reconciliation..."] ++
      match rcn with
      | .error e => failOps e
      | .ok rfs =>
        [.logMsg (reconcileDoneMsg rfs),
         .setStatus "generating_report" none none none none,
         .logMsg "Generating Excel report..."] ++
        match gen with
        | .error e => failOps e
        | .ok path =>
          [.logMsg ("Excel report generated at: " ++ path),
           .setStatus "completed" none (some path) none none,
           .logMsg "Workflow completed successfully!"]

/-- The ledger operations of the upload handler
(`upload_pdf_for_processing`, main.py 50-84) for an accepted `.pdf` upload:
initialize the task, then either record the GCS URI (status `received`
again), spawn the workflow and set status `processing`, or on an upload
exception transition to `failed`. -/
def uploadOps (filename : String) (gcsUpload : Except String String) : List LOp :=
  [.initTask filename] ++
  match gcsUpload with
  | .ok uri => [.setStatus "received" none none none (some uri),
                .setStatus "processing" none none none none]
  | .error e => [.setStatus "failed" none none (some e) none]

/-- The complete single-task trace: the upload handler followed (when the
upload succeeded, hence the workflow was spawned) by the workflow. -/
def systemOps (filename : String) (gcsUpload ocr : Except String String)
    (ext rcn : Except String (List (String × PyVal)))
    (gen : Except String String) : List LOp :=
  uploadOps filename gcsUpload ++
  match gcsUpload with
  | .ok uri => processPdfOps uri ocr ext rcn gen
  | .error _ => []

/-- The successive values the `status` field of a task takes along a trace
(`init_task` writes `received`). -/
def statusesOf : List LOp → List String
  | [] => []
  | .initTask _ :: rest => "received" :: statusesOf rest
  | .logMsg _ :: rest => statusesOf rest
  | .setStatus s _ _ _ _ :: rest => s :: statusesOf rest

/-- Position of a status in the observed forward order (`failed` is the
terminal sink and sorts last). -/
def statusRank : String → Nat
  | "received" => 0
  | "processing" => 1
  | "processing_ocr" => 2
  | "processing_gemini_extract" => 3
  | "processing_reconciliation" => 4
  | "generating_report" => 5
  | "completed" => 6
  | "failed" => 7
  | _ => 100

def ranksMonotone : List String → Bool
  | [] => true
  | [_] => true
  | a :: b :: rest => decide (statusRank a ≤ statusRank b) && ranksMonotone (b :: rest)

/-- Status `failed` occurs only as the last status of the sequence. -/
def failedTerminal : List String → Bool
  | [] => true
  | [_] => true
  | a :: b :: rest => (a != "failed") && failedTerminal (b :: rest)

/-- The message of the first pipeline stage that raised, if any. -/
def firstStageFailure (ocr : Except String String)
    (ext rcn : Except String (List (String × PyVal)))
    (gen : Except String String) : Option String :=
  match ocr with
  | .error e => some e
  | .ok _ =>
    match ext with
    | .error e => some e
    | .ok _ =>
      match rcn with
      | .error e => some e
      | .ok _ =>
        match gen with
        | .error e => some e
        | .ok _ => none

/-- How many `failed` transitions a trace performs. -/
def countFailedSets : List LOp → Nat
  | [] => 0
  | .setStatus s _ _ _ _ :: rest => (if s = "failed" then 1 else 0) + countFailedSets rest
  | _ :: rest => countFailedSets rest

def taskStatus (l : Ledger) (task_id : String) : Option String :=
  (lget l.tasks task_id).map (·.status)

def taskError (l : Ledger) (task_id : String) : Option String :=
  (lget l.tasks task_id).bind (·.error)

def taskLogs (l : Ledger) (task_id : String) : List (Nat × String) :=
  ((lget l.tasks task_id).map (·.logs)).getD []

def taskLogMsgs (l : Ledger) (task_id : String) : List String :=
  (taskLogs l task_id).map Prod.snd

/-! ## Ledger lemmas -/

theorem lget_lset_self {α : Type} (xs : List (String × α)) (k : String) (v : α) :
    lget (lset xs k v) k = some v := by
  induction xs with
  | nil => simp [lget, lset]
  | cons h t ih =>
      obtain ⟨k', v'⟩ := h
      by_cases hk : k' = k
      · simp [lset, lget, hk]
      · simp [lset, lget, hk, ih]

theorem taskLogs_add_task_log (l : Ledger) (tid m : String) :
    taskLogs (add_task_log l tid m) tid
      = taskLogs l tid
        ++ (if (lget l.tasks tid).isSome then [(l.now, m)] else []) := by
  unfold add_task_log taskLogs
  cases h : lget l.tasks tid with
  | none => simp [h]
  | some r => simp [h, lget_lset_self]

theorem taskLogs_update (l : Ledger) (tid st : String) (fn rf er gu : Option String) :
    taskLogs (update_task_status l tid st fn rf er gu) tid
      = taskLogs l tid
        ++ (if optTruthy er then [(l.now, "ERROR: " ++ er.getD "")] else [])
        ++ [((if optTruthy er then l.now + 1 else l.now), "Status changed to: " ++ st)] := by
  unfold update_task_status
  by_cases her : optTruthy er <;>
    cases h : lget l.tasks tid <;>
      simp [h, her, taskLogs_add_task_log, taskLogs, lget_lset_self, add_task_log,
        apply_ite TaskRec.logs]

theorem taskLogs_runOp_append (l : Ledger) (tid : String) (op : LOp)
    (hni : op.isInitTask = false) :
    ∃ suffix, taskLogs (runOp l tid op) tid = taskLogs l tid ++ suffix := by
  cases op with
  | initTask fn => simp [LOp.isInitTask] at hni
  | logMsg m => exact ⟨_, taskLogs_add_task_log l tid m⟩
  | setStatus st fn rf er gu =>
      refine ⟨(if optTruthy er then [(l.now, "ERROR: " ++ er.getD "")] else [])
        ++ [((if optTruthy er then l.now + 1 else l.now), "Status changed to: " ++ st)], ?_⟩
      rw [← List.append_assoc]
      exact taskLogs_update l tid st fn rf er gu

theorem taskLogs_runOps_append (l : Ledger) (tid : String) (ops : List LOp)
    (hni : ops.all (fun o => !o.isInitTask) = true) :
    ∃ suffix, taskLogs (runOps l tid ops) tid = taskLogs l tid ++ suffix := by
  induction ops generalizing l with
  | nil => exact ⟨[], by simp [runOps]⟩
  | cons op rest ih =>
      simp only [List.all_cons, Bool.and_eq_true, Bool.not_eq_true'] at hni
      obtain ⟨s1, h1⟩ := taskLogs_runOp_append l tid op hni.1
      obtain ⟨s2, h2⟩ := ih (runOp l tid op)
        (by simp [List.all_eq_true] at hni ⊢; exact fun o ho => hni.2 o ho)
      refine ⟨s1 ++ s2, ?_⟩
      have hc : runOps l tid (op :: rest) = runOps (runOp l tid op) tid rest := by
        simp [runOps, List.foldl_cons]
      rw [hc, h2, h1, List.append_assoc]

theorem runOps_append (l : Ledger) (tid : String) (xs ys : List LOp) :
    runOps l tid (xs ++ ys) = runOps (runOps l tid xs) tid ys := by
  simp [runOps, List.foldl_append]

theorem present_update (l : Ledger) (tid st : String) (fn rf er gu : Option String) :
    (lget (update_task_status l tid st fn rf er gu).tasks tid).isSome = true := by
  unfold update_task_status add_task_log
  by_cases her : optTruthy er <;>
    cases h : lget l.tasks tid <;>
      simp [h, her, lget_lset_self]

theorem present_add_task_log (l : Ledger) (tid m : String)
    (h : (lget l.tasks tid).isSome = true) :
    (lget (add_task_log l tid m).tasks tid).isSome = true := by
  unfold add_task_log
  cases hg : lget l.tasks tid with
  | none => simp [hg] at h
  | some r => simp [hg, lget_lset_self]

theorem present_init_task (l : Ledger) (tid fn : String) :
    (lget (init_task l tid fn).tasks tid).isSome = true := by
  unfold init_task add_task_log
  simp [lget_lset_self]

theorem present_runOp (l : Ledger) (tid : String) (op : LOp)
    (h : (lget l.tasks tid).isSome = true) :
    (lget (runOp l tid op).tasks tid).isSome = true := by
  cases op with
  | initTask fn => exact present_init_task l tid fn
  | logMsg m => exact present_add_task_log l tid m h
  | setStatus st fn rf er gu => exact present_update l tid st fn rf er gu

theorem present_runOps (l : Ledger) (tid : String) (ops : List LOp)
    (h : (lget l.tasks tid).isSome = true) :
    (lget (runOps l tid ops).tasks tid).isSome = true := by
  induction ops generalizing l with
  | nil => simpa [runOps] using h
  | cons op rest ih =>
      have hc : runOps l tid (op :: rest) = runOps (runOp l tid op) tid rest := by
        simp [runOps, List.foldl_cons]
      rw [hc]
      exact ih _ (present_runOp l tid op h)

theorem taskStatus_add_task_log (l : Ledger) (tid m : String) :
    taskStatus (add_task_log l tid m) tid = taskStatus l tid := by
  unfold add_task_log taskStatus
  cases h : lget l.tasks tid with
  | none => simp [h]
  | some r => simp [h, lget_lset_self]

theorem taskError_add_task_log (l : Ledger) (tid m : String) :
    taskError (add_task_log l tid m) tid = taskError l tid := by
  unfold add_task_log taskError
  cases h : lget l.tasks tid with
  | none => simp [h]
  | some r => simp [h, lget_lset_self]

theorem taskStatus_update (l : Ledger) (tid st : String) (fn rf er gu : Option String) :
    taskStatus (update_task_status l tid st fn rf er gu) tid = some st := by
  unfold update_task_status
  rw [taskStatus_add_task_log]
  by_cases her : optTruthy er
  · simp only [her, if_true]
    rw [taskStatus_add_task_log]
    unfold taskStatus
    cases h : lget l.tasks tid <;>
      simp [h, lget_lset_self, apply_ite TaskRec.status]
  · simp only [her, if_false]
    unfold taskStatus
    cases h : lget l.tasks tid <;>
      simp [h, lget_lset_self, apply_ite TaskRec.status]

theorem taskError_update_truthy (l : Ledger) (tid st : String)
    (fn rf gu : Option String) (e : String) (he : e ≠ "") :
    taskError (update_task_status l tid st fn rf (some e) gu) tid = some e := by
  unfold update_task_status
  rw [taskError_add_task_log]
  have her : optTruthy (some e) = true := by simp [optTruthy, he]
  simp only [her, if_true]
  rw [taskError_add_task_log]
  unfold taskError
  cases h : lget l.tasks tid <;>
    simp [h, lget_lset_self, apply_ite TaskRec.error]

theorem download_result_of_failed (l : Ledger) (tid : String)
    (h : taskStatus l tid = some "failed") :
    download_result l tid
      = .error (400, "Processing not complete or result file not available.") := by
  unfold download_result
  unfold taskStatus at h
  cases hg : lget l.tasks tid with
  | none => simp [hg] at h
  | some r =>
      simp [hg] at h
      simp [hg, h]

theorem countFailedSets_append (xs ys : List LOp) :
    countFailedSets (xs ++ ys) = countFailedSets xs + countFailedSets ys := by
  induction xs with
  | nil => simp [countFailedSets]
  | cons op rest ih =>
      cases op <;> simp [countFailedSets, ih] <;> omega

/-- Running the `except`-boundary operations of the workflow on a ledger where
the task exists: status becomes `failed`, the error field carries the raised
message, the failure log line is present, and the download endpoint rejects
with the 400 precondition error. -/
theorem failOps_final (l : Ledger) (tid msg : String)
    (hpres : (lget l.tasks tid).isSome = true) (hmsg : msg ≠ "") :
    taskStatus (runOps l tid (failOps msg)) tid = some "failed"
    ∧ taskError (runOps l tid (failOps msg)) tid = some msg
    ∧ ("Workflow failed: " ++ msg) ∈ taskLogMsgs (runOps l tid (failOps msg)) tid
    ∧ download_result (runOps l tid (failOps msg)) tid
        = .error (400, "Processing not complete or result file not available.") := by
  have hrun : runOps l tid (failOps msg)
      = update_task_status (add_task_log l tid ("Workflow failed: " ++ msg)) tid "failed"
          none none (some msg) none := rfl
  rw [hrun]
  have hstat := taskStatus_update (add_task_log l tid ("Workflow failed: " ++ msg))
    tid "failed" none none (some msg) none
  refine ⟨hstat, taskError_update_truthy _ _ _ _ _ _ _ hmsg, ?_,
    download_result_of_failed _ _ hstat⟩
  unfold taskLogMsgs
  rw [taskLogs_update, taskLogs_add_task_log]
  simp [hpres]

/-- A trace of the form `initTask` / failure-free prefix / `except` boundary:
the final ledger facts of `failOps_final`, plus: exactly one `failed`
transition occurs in the whole trace. -/
theorem run_pre_fail (tid fn msg : String) (pre : List LOp) (hmsg : msg ≠ "")
    (hcount : countFailedSets pre = 0) :
    taskStatus (runOps {} tid ((LOp.initTask fn :: pre) ++ failOps msg)) tid = some "failed"
    ∧ taskError (runOps {} tid ((LOp.initTask fn :: pre) ++ failOps msg)) tid = some msg
    ∧ ("Workflow failed: " ++ msg)
        ∈ taskLogMsgs (runOps {} tid ((LOp.initTask fn :: pre) ++ failOps msg)) tid
    ∧ countFailedSets ((LOp.initTask fn :: pre) ++ failOps msg) = 1
    ∧ download_result (runOps {} tid ((LOp.initTask fn :: pre) ++ failOps msg)) tid
        = .error (400, "Processing not complete or result file not available.") := by
  rw [runOps_append]
  have hpres : (lget (runOps {} tid (LOp.initTask fn :: pre)).tasks tid).isSome = true := by
    have hc : runOps ({} : Ledger) tid (LOp.initTask fn :: pre)
        = runOps (runOp {} tid (.initTask fn)) tid pre := by
      simp [runOps, List.foldl_cons]
    rw [hc]
    exact present_runOps _ tid pre (present_init_task _ tid fn)
  obtain ⟨h1, h2, h3, h4⟩ := failOps_final (runOps {} tid (LOp.initTask fn :: pre)) tid msg hpres hmsg
  refine ⟨h1, h2, h3, ?_, h4⟩
  rw [show (LOp.initTask fn :: pre) ++ failOps msg = LOp.initTask fn :: (pre ++ failOps msg)
    from rfl]
  simp [countFailedSets, countFailedSets_append, hcount, failOps]

/-! ## Claim theorems -/

/-- C1: the claim says the normalization step never raises, for any raw
extraction payload.  The code violates this: a string payload that parses as
JSON but not as a mapping (here the valid JSON text `"[1, 2]"`) reaches
`parsed_data.get("tables")` on a list, raising `AttributeError`, which the
handler at processing.py line 386 rewraps and re-raises; normalization
signals an error instead of returning a CanonicalDocument. -/
theorem normalize_raises_on_json_list :
    normalizeExtractResponse jsonLoadsModel "gs://b/x.pdf" (.pystr "[1, 2]")
      = .error "Gemini extraction failed for gs://b/x.pdf" := rfl

/-- C2: the reconciliation step returns its candidate document unchanged,
whatever the corroborating OCR text is (processing.py line 429 returns
`extracted_json` unconditionally once the client-availability guards pass). -/
theorem reconcile_returns_candidate_unchanged (doc : PyVal) (ocr_text : String) :
    reconcile_with_gemini true true doc ocr_text = .ok doc := rfl

/-- C3 counterexample: on the non-mapping payload `"Nome: Ana\nIdade: 30"`
(not valid JSON), normalization does NOT derive key_value_pairs from
`key: value` lines and does NOT leave metadata empty: it returns the fallback
structure with `key_value_pairs = {raw_response: <the text>}` and
`metadata = {error: "Unexpected response type"}`.  The line-oriented parsing
the claim describes exists only in the unreachable code after the
unconditional `return` at processing.py line 429. -/
theorem normalize_no_line_parsing :
    normalizeExtractResponse jsonLoadsModel "gs://b/x.pdf" (.pystr "Nome: Ana\nIdade: 30")
      = .ok (.pydict
          [("metadata", .pydict [("error", .pystr "Unexpected response type")]),
           ("key_value_pairs", .pydict [("raw_response", .pystr "Nome: Ana\nIdade: 30")]),
           ("text_sections", .pydict []),
           ("tables", .pylist [])])
    ∧ PyVal.pydict [("raw_response", PyVal.pystr "Nome: Ana\nIdade: 30")]
        ≠ PyVal.pydict [("Nome", PyVal.pystr "Ana"), ("Idade", PyVal.pystr "30")] := by
  refine ⟨rfl, ?_⟩
  intro h
  simp at h

/-- C3 (amended): for every non-mapping raw payload that is not a string
parsing as JSON, normalization returns the fallback CanonicalDocument: empty
`tables` and `text_sections`, `metadata` holding the single entry
`error = "Unexpected response type"`, and `key_value_pairs` holding the
single entry `raw_response = str(payload)`. -/
theorem normalize_non_mapping_fallback (jsonLoads : String → Option PyVal)
    (v : PyVal) (hnd : v.isDict = false)
    (hns : ∀ s, v = .pystr s → jsonLoads s = none) :
    normalizeExtractResponse jsonLoads "gs://b/x.pdf" v
      = .ok (.pydict
          [("metadata", .pydict [("error", .pystr "Unexpected response type")]),
           ("key_value_pairs", .pydict [("raw_response", .pystr (pyStr v))]),
           ("text_sections", .pydict []),
           ("tables", .pylist [])]) := by
  cases v with
  | pydict fs => simp [PyVal.isDict] at hnd
  | pystr s =>
      have h := hns s rfl
      simp [normalizeExtractResponse, h, fallbackResponse]
  | pynone => rfl
  | pybool b => rfl
  | pyint n => rfl
  | pylist xs => rfl

/-- C3 witness: the amended theorem applied to the concrete non-JSON string
payload `"hello"`. -/
theorem normalize_non_mapping_fallback_witness :
    (PyVal.pystr "hello").isDict = false
    ∧ normalizeExtractResponse (fun _ => none) "gs://b/x.pdf" (.pystr "hello")
      = .ok (.pydict
          [("metadata", .pydict [("error", .pystr "Unexpected response type")]),
           ("key_value_pairs", .pydict [("raw_response", .pystr (pyStr (.pystr "hello")))]),
           ("text_sections", .pydict []),
           ("tables", .pylist [])]) :=
  ⟨rfl, normalize_non_mapping_fallback (fun _ => none) (.pystr "hello") rfl (fun _ _ => rfl)⟩

/-- C8: rendering a CanonicalDocument whose four fields are all empty
produces exactly one sheet, the fallback Info sheet with its single
informational row (processing.py lines 657-659); the artifact is never
sheet-less. -/
theorem render_empty_doc_info_sheet (data : List (String × PyVal))
    (hm : lget data "metadata" = some (.pydict []))
    (hk : lget data "key_value_pairs" = some (.pydict []))
    (ht : lget data "text_sections" = some (.pydict []))
    (htb : lget data "tables" = some (.pylist [])) :
    writeExcelSheets data
      = [("Info", [[.pystr "Status"],
                   [.pystr "No structured data extracted or processed"]])] := by
  have hne : data.isEmpty = false := by
    cases data with
    | nil => simp [lget] at hm
    | cons a l => rfl
  simp [writeExcelSheets, summaryItems, hm, hk, ht, htb, hne, writeTables]

/-- C8 witness: the theorem applied to the literal empty CanonicalDocument. -/
theorem render_empty_doc_info_sheet_witness :
    lget [("metadata", PyVal.pydict []), ("key_value_pairs", PyVal.pydict []),
          ("text_sections", PyVal.pydict []), ("tables", PyVal.pylist [])]
        "metadata" = some (.pydict [])
    ∧ writeExcelSheets
        [("metadata", PyVal.pydict []), ("key_value_pairs", PyVal.pydict []),
         ("text_sections", PyVal.pydict []), ("tables", PyVal.pylist [])]
      = [("Info", [[.pystr "Status"],
                   [.pystr "No structured data extracted or processed"]])] :=
  ⟨rfl, render_empty_doc_info_sheet _ rfl rfl rfl rfl⟩

/-- C7 counterexample: the claim says non-sequence rows are dropped "while
sequence rows are kept", and that only a table with zero surviving rows is
dropped.  But a kept table whose surviving rows are all sequences is still
dropped whole when the widest row does not match the header count:
`pd.DataFrame(valid_rows, columns=headers)` raises `ValueError` (here 2
headers against a 3-cell row), the handler at processing.py line 648 skips
the sheet, and the surviving sequence rows `["1","2"]` and `["3","4","5"]`
are not rendered at all (only the Info fallback remains). -/
theorem sequence_rows_lost_on_width_mismatch :
    writeExcelSheets
        [("metadata", PyVal.pydict []), ("key_value_pairs", PyVal.pydict []),
         ("text_sections", PyVal.pydict []),
         ("tables", PyVal.pylist [PyVal.pydict
            [("table_title", PyVal.pystr "T"),
             ("headers", PyVal.pylist [.pystr "A", .pystr "B"]),
             ("rows", PyVal.pylist [.pylist [.pystr "1", .pystr "2"],
                                    .pylist [.pystr "3", .pystr "4", .pystr "5"]])]])]
      = [("Info", [[.pystr "Status"],
                   [.pystr "No structured data extracted or processed"]])]
    ∧ ([PyVal.pylist [.pystr "1", .pystr "2"],
        PyVal.pylist [.pystr "3", .pystr "4", .pystr "5"]].filterMap (fun r =>
          match r with
          | PyVal.pylist cells => some cells
          | _ => none)).length = 2 :=
  ⟨rfl, rfl⟩

/-- C7 (amended): within a kept table (a mapping with a `headers` sequence
and a non-empty `rows` sequence), each non-sequence row is dropped and the
sequence rows are kept in their original order, provided the widest surviving
row matches the header count; a table with zero surviving rows — or whose
widest surviving row does not match the header count — is dropped entirely
without failing the render.  In particular headers `["A","B"]` with rows
`[["1","2"], "bad-row"]` render exactly the single row `["1","2"]`. -/
theorem kept_table_row_filtering (title : String) (headers rows : List PyVal) :
    (∀ validRows, validRows = rows.filterMap (fun r =>
        match r with
        | PyVal.pylist cells => some cells
        | _ => none) →
      validRows ≠ [] → maxRowWidth validRows = headers.length →
      writeExcelSheets
          [("metadata", PyVal.pydict []), ("key_value_pairs", PyVal.pydict []),
           ("text_sections", PyVal.pydict []),
           ("tables", PyVal.pylist [PyVal.pydict
              [("table_title", PyVal.pystr title),
               ("headers", PyVal.pylist headers),
               ("rows", PyVal.pylist rows)]])]
        = [(sanitizeSheetName title, headers :: validRows.map (padRow headers.length))])
    ∧ (rows.filterMap (fun r =>
        match r with
        | PyVal.pylist cells => some cells
        | _ => none) = [] →
      writeExcelSheets
          [("metadata", PyVal.pydict []), ("key_value_pairs", PyVal.pydict []),
           ("text_sections", PyVal.pydict []),
           ("tables", PyVal.pylist [PyVal.pydict
              [("table_title", PyVal.pystr title),
               ("headers", PyVal.pylist headers),
               ("rows", PyVal.pylist rows)]])]
        = [("Info", [[.pystr "Status"],
                     [.pystr "No structured data extracted or processed"]])])
    ∧ writeExcelSheets
          [("metadata", PyVal.pydict []), ("key_value_pairs", PyVal.pydict []),
           ("text_sections", PyVal.pydict []),
           ("tables", PyVal.pylist [PyVal.pydict
              [("table_title", PyVal.pystr "T"),
               ("headers", PyVal.pylist [.pystr "A", .pystr "B"]),
               ("rows", PyVal.pylist [.pylist [.pystr "1", .pystr "2"],
                                      .pystr "bad-row"])]])]
        = [("T", [[.pystr "A", .pystr "B"], [.pystr "1", .pystr "2"]])] := by
  refine ⟨?_, ?_, rfl⟩
  · intro validRows hv hne hw
    subst hv
    have hrows : rows.isEmpty = false := by
      cases rows with
      | nil => simp at hne
      | cons a l => rfl
    have hvne : (rows.filterMap (fun r =>
        match r with
        | PyVal.pylist cells => some cells
        | _ => none)).isEmpty = false := by
      cases h : rows.filterMap (fun r =>
        match r with
        | PyVal.pylist cells => some cells
        | _ => none) with
      | nil => exact absurd h hne
      | cons a l => rfl
    simp [writeExcelSheets, summaryItems, lget, writeTables, writeOneTable,
      hrows, hvne, hw, pyStr, writeSheet]
  · intro hv
    have hvempty : (rows.filterMap (fun r =>
        match r with
        | PyVal.pylist cells => some cells
        | _ => none)).isEmpty = true := by
      rw [hv]; rfl
    by_cases hrows : rows = []
    · subst hrows
      rfl
    · have hrne : rows.isEmpty = false := by
        cases rows with
        | nil => exact absurd rfl hrows
        | cons a l => rfl
      simp [writeExcelSheets, summaryItems, lget, writeTables, writeOneTable,
        hrne, hvempty]

/-- C7 witness: the general filtering part applied to the concrete
table (headers `["A","B"]`, rows `[["1","2"], "bad-row"]`). -/
theorem kept_table_row_filtering_witness :
    ([PyVal.pylist [.pystr "1", .pystr "2"], PyVal.pystr "bad-row"].filterMap (fun r =>
        match r with
        | PyVal.pylist cells => some cells
        | _ => none) ≠ [])
    ∧ writeExcelSheets
          [("metadata", PyVal.pydict []), ("key_value_pairs", PyVal.pydict []),
           ("text_sections", PyVal.pydict []),
           ("tables", PyVal.pylist [PyVal.pydict
              [("table_title", PyVal.pystr "T"),
               ("headers", PyVal.pylist [.pystr "A", .pystr "B"]),
               ("rows", PyVal.pylist [.pylist [.pystr "1", .pystr "2"],
                                      .pystr "bad-row"])]])]
        = [(sanitizeSheetName "T",
            [.pystr "A", .pystr "B"] ::
              ([PyVal.pylist [.pystr "1", .pystr "2"], PyVal.pystr "bad-row"].filterMap (fun r =>
                match r with
                | PyVal.pylist cells => some cells
                | _ => none)).map (padRow 2))] := by
  refine ⟨by simp, ?_⟩
  exact (kept_table_row_filtering "T" [.pystr "A", .pystr "B"]
      [.pylist [.pystr "1", .pystr "2"], .pystr "bad-row"]).1
    _ rfl (by simp) rfl

/-- C6: the claim (and spec hardening requirement) says two tables whose
titles sanitize to the same sheet name must get two distinct sheet names.
The code does not disambiguate: both `to_excel` calls use the sanitized name
`A_B`, pandas reuses the already-created worksheet for the second call, and
the artifact ends up with a single sheet named `A_B` (the cells of the
second table overwriting those of the first). -/
theorem colliding_sheet_names_merge :
    sanitizeSheetName "A B" = "A_B"
    ∧ sanitizeSheetName "A*B" = "A_B"
    ∧ (writeExcelSheets
        [("metadata", PyVal.pydict []), ("key_value_pairs", PyVal.pydict []),
         ("text_sections", PyVal.pydict []),
         ("tables", PyVal.pylist
           [PyVal.pydict [("table_title", PyVal.pystr "A B"),
              ("headers", PyVal.pylist [.pystr "H1"]),
              ("rows", PyVal.pylist [.pylist [.pystr "x"]])],
            PyVal.pydict [("table_title", PyVal.pystr "A*B"),
              ("headers", PyVal.pylist [.pystr "H2"]),
              ("rows", PyVal.pylist [.pylist [.pystr "y"]])]])]).map Prod.fst
      = ["A_B"] :=
  ⟨rfl, rfl, rfl⟩

/-- C10: appending a log entry for a task id that is not in the ledger is a
silent no-op: `add_task_log` returns normally and the ledger is unchanged
(tasks.py lines 49-50). -/
theorem add_task_log_unknown_id_noop (l : Ledger) (task_id message : String)
    (h : lget l.tasks task_id = none) :
    add_task_log l task_id message = l := by
  simp [add_task_log, h]

/-- C10 witness: the no-op on the empty ledger. -/
theorem add_task_log_unknown_id_noop_witness :
    lget (Ledger.tasks {}) "t" = none
    ∧ add_task_log {} "t" "a message" = ({} : Ledger) :=
  ⟨rfl, add_task_log_unknown_id_noop {} "t" "a message" rfl⟩

/-- C9: for a task present in the ledger, the log is append-only across any
sequence of update/append operations (the two operations the orchestrator
performs on an existing task): the previous (timestamp, message) entries
remain an unchanged prefix, so the length never decreases and nothing is
removed, truncated or reordered; moreover every status-changing update
automatically appends its `Status changed to: ...` breadcrumb (after the
`ERROR: ...` line when an error is recorded), in call order, in addition to
explicitly appended log lines. -/
theorem ledger_log_append_only (l : Ledger) (tid : String) (ops : List LOp)
    (hni : ops.all (fun o => !o.isInitTask) = true)
    (hpres : (lget l.tasks tid).isSome = true) :
    (∃ suffix, taskLogs (runOps l tid ops) tid = taskLogs l tid ++ suffix)
    ∧ (∀ st fn rf er gu,
        taskLogMsgs (update_task_status l tid st fn rf er gu) tid
          = taskLogMsgs l tid
            ++ (if optTruthy er then ["ERROR: " ++ er.getD ""] else [])
            ++ ["Status changed to: " ++ st]) := by
  refine ⟨taskLogs_runOps_append l tid ops hni, ?_⟩
  intro st fn rf er gu
  unfold taskLogMsgs
  rw [taskLogs_update]
  by_cases her : optTruthy er <;> simp [her]

/-- A concrete one-task ledger used by the log-append witness below. -/
def sampleLedger : Ledger :=
  Ledger.mk
    [("t", TaskRec.mk "received" (some "f.pdf") none none none
        [(0, "Task initialized with file: f.pdf")])] 1

/-- C9 witness: the theorem applied to a concrete one-task ledger and a
concrete explicit-log-plus-transition operation sequence. -/
theorem ledger_log_append_only_witness :
    ([LOp.logMsg "Starting OCR processing...",
      LOp.setStatus "processing_ocr" none none none none].all
        (fun o => !o.isInitTask) = true)
    ∧ ((lget sampleLedger.tasks "t").isSome = true)
    ∧ (∃ suffix,
        taskLogs (runOps sampleLedger "t"
          [LOp.logMsg "Starting OCR processing...",
           LOp.setStatus "processing_ocr" none none none none]) "t"
        = taskLogs sampleLedger "t" ++ suffix) :=
  ⟨rfl, rfl,
    (ledger_log_append_only sampleLedger "t"
      [LOp.logMsg "Starting OCR processing...",
       LOp.setStatus "processing_ocr" none none none none] rfl rfl).1⟩

/-- C5: whenever any pipeline stage raises (with a non-empty message, the
Python truthiness condition under which `update_task_status` records an
error), the orchestrator catches it exactly once at its boundary — the whole
trace contains exactly one `failed` transition — the task ends in status
`failed` with the error field carrying the causing message and a log entry
recording the failure, the exception never escapes `process_pdf` (the trace
is total by construction, mirroring the catch-all `except` of
workflow_manager.py lines 91-96), and the download endpoint then rejects the
task with the 400 precondition error. -/
theorem stage_failure_single_catch (tid fn uri msg : String)
    (ocr : Except String String) (ext rcn : Except String (List (String × PyVal)))
    (gen : Except String String)
    (hfail : firstStageFailure ocr ext rcn gen = some msg)
    (hmsg : msg ≠ "") :
    taskStatus (runOps {} tid (systemOps fn (.ok uri) ocr ext rcn gen)) tid = some "failed"
    ∧ taskError (runOps {} tid (systemOps fn (.ok uri) ocr ext rcn gen)) tid = some msg
    ∧ ("Workflow failed: " ++ msg)
        ∈ taskLogMsgs (runOps {} tid (systemOps fn (.ok uri) ocr ext rcn gen)) tid
    ∧ countFailedSets (systemOps fn (.ok uri) ocr ext rcn gen) = 1
    ∧ download_result (runOps {} tid (systemOps fn (.ok uri) ocr ext rcn gen)) tid
        = .error (400, "Processing not complete or result file not available.") := by
  cases ocr with
  | error e =>
      have he : e = msg := by simpa [firstStageFailure] using hfail
      subst he
      have hsplit : systemOps fn (.ok uri) (.error e) ext rcn gen
          = (LOp.initTask fn ::
              [.setStatus "received" none none none (some uri),
               .setStatus "processing" none none none none,
               .logMsg ("Starting workflow with GCS URI: " ++ uri),
               .setStatus "processing_ocr" none none none none,
               .logMsg "Starting OCR processing..."]) ++ failOps e := rfl
      rw [hsplit]
      exact run_pre_fail tid fn e _ hmsg (by simp [countFailedSets])
  | ok ocrText =>
      cases ext with
      | error e =>
          have he : e = msg := by simpa [firstStageFailure] using hfail
          subst he
          have hsplit : systemOps fn (.ok uri) (.ok ocrText) (.error e) rcn gen
              = (LOp.initTask fn ::
                  [.setStatus "received" none none none (some uri),
                   .setStatus "processing" none none none none,
                   .logMsg ("Starting workflow with GCS URI: " ++ uri),
                   .setStatus "processing_ocr" none none none none,
                   .logMsg "Starting OCR processing...",
                   .logMsg ("OCR completed successfully. Extracted "
                     ++ toString ocrText.length ++ " characters."),
                   .setStatus "processing_gemini_extract" none none none none,
                   .logMsg "Starting Gemini extraction..."]) ++ failOps e := rfl
          rw [hsplit]
          exact run_pre_fail tid fn e _ hmsg (by simp [countFailedSets])
      | ok fs =>
          cases rcn with
          | error e =>
              have he : e = msg := by simpa [firstStageFailure] using hfail
              subst he
              have hsplit : systemOps fn (.ok uri) (.ok ocrText) (.ok fs) (.error e) gen
                  = (LOp.initTask fn ::
                      [.setStatus "received" none none none (some uri),
                       .setStatus "processing" none none none none,
                       .logMsg ("Starting workflow with GCS URI: " ++ uri),
                       .setStatus "processing_ocr" none none none none,
                       .logMsg "Starting OCR processing...",
                       .logMsg ("OCR completed successfully. Extracted "
                         ++ toString ocrText.length ++ " characters."),
                       .setStatus "processing_gemini_extract" none none none none,
                       .logMsg "Starting Gemini extraction...",
                       .logMsg (extractDoneMsg fs),
                       .setStatus "processing_reconciliation" none none none none,
                       .logMsg "Starting Gemini reconciliation..."]) ++ failOps e := rfl
              rw [hsplit]
              exact run_pre_fail tid fn e _ hmsg (by simp [countFailedSets])
          | ok rfs =>
              cases gen with
              | error e =>
                  have he : e = msg := by simpa [firstStageFailure] using hfail
                  subst he
                  have hsplit : systemOps fn (.ok uri) (.ok ocrText) (.ok fs) (.ok rfs) (.error e)
                      = (LOp.initTask fn ::
                          [.setStatus "received" none none none (some uri),
                           .setStatus "processing" none none none none,
                           .logMsg ("Starting workflow with GCS URI: " ++ uri),
                           .setStatus "processing_ocr" none none none none,
                           .logMsg "Starting OCR processing...",
                           .logMsg ("OCR completed successfully. Extracted "
                             ++ toString ocrText.length ++ " characters."),
                           .setStatus "processing_gemini_extract" none none none none,
                           .logMsg "Starting Gemini extraction...",
                           .logMsg (extractDoneMsg fs),
                           .setStatus "processing_reconciliation" none none none none,
                           .logMsg "Starting Gemini reconciliation...",
                           .logMsg (reconcileDoneMsg rfs),
                           .setStatus "generating_report" none none none none,
                           .logMsg "Generating Excel report..."]) ++ failOps e := rfl
                  rw [hsplit]
                  exact run_pre_fail tid fn e _ hmsg (by simp [countFailedSets])
              | ok path => simp [firstStageFailure] at hfail

/-- C5 witness: the extraction stage raises `ExtractionFailure`. -/
theorem stage_failure_single_catch_witness :
    firstStageFailure (.ok "Nome: Ana") (.error "ExtractionFailure") (.ok []) (.ok "/tmp/r.xlsx")
        = some "ExtractionFailure"
    ∧ taskStatus (runOps {} "t" (systemOps "f.pdf" (.ok "gs://b/x.pdf") (.ok "Nome: Ana")
        (.error "ExtractionFailure") (.ok []) (.ok "/tmp/r.xlsx"))) "t" = some "failed"
    ∧ taskError (runOps {} "t" (systemOps "f.pdf" (.ok "gs://b/x.pdf") (.ok "Nome: Ana")
        (.error "ExtractionFailure") (.ok []) (.ok "/tmp/r.xlsx"))) "t" = some "ExtractionFailure"
    ∧ ("Workflow failed: " ++ "ExtractionFailure")
        ∈ taskLogMsgs (runOps {} "t" (systemOps "f.pdf" (.ok "gs://b/x.pdf") (.ok "Nome: Ana")
            (.error "ExtractionFailure") (.ok []) (.ok "/tmp/r.xlsx"))) "t"
    ∧ countFailedSets (systemOps "f.pdf" (.ok "gs://b/x.pdf") (.ok "Nome: Ana")
        (.error "ExtractionFailure") (.ok []) (.ok "/tmp/r.xlsx")) = 1
    ∧ download_result (runOps {} "t" (systemOps "f.pdf" (.ok "gs://b/x.pdf") (.ok "Nome: Ana")
        (.error "ExtractionFailure") (.ok []) (.ok "/tmp/r.xlsx"))) "t"
        = .error (400, "Processing not complete or result file not available.") :=
  ⟨rfl, stage_failure_single_catch "t" "f.pdf" "gs://b/x.pdf" "ExtractionFailure"
    (.ok "Nome: Ana") (.error "ExtractionFailure") (.ok []) (.ok "/tmp/r.xlsx")
    rfl (by decide)⟩

/-- C4 counterexample: the status enum of the claim omits `processing`.  The
upload handler (main.py line 76) sets status `processing` right after
spawning the workflow, so the successful trace takes a status value outside
the claimed seven-value enum. -/
theorem status_processing_outside_enum :
    "processing" ∈ statusesOf (systemOps "f.pdf" (.ok "gs://b/x.pdf") (.ok "txt")
        (.ok []) (.ok []) (.ok "/tmp/r.xlsx"))
    ∧ "processing" ∉ ["received", "processing_ocr", "processing_gemini_extract",
        "processing_reconciliation", "generating_report", "completed", "failed"] := by
  constructor
  · decide
  · decide

/-- C4 (amended): along every system trace the task status takes values only
in the eight-value enum (the claimed seven plus `processing`, set by the
upload handler between `received` and `processing_ocr`); the status never
moves backward in the order received < processing < processing_ocr <
processing_gemini_extract < processing_reconciliation < generating_report <
completed, with failed above all; `failed` occurs only as the final status;
and `failed` is reachable from every non-terminal status (witnessed by an
upload-failure trace, an OCR-failure trace and a report-failure trace). -/
theorem status_trace_monotone (fn : String) (gcsUpload ocr : Except String String)
    (ext rcn : Except String (List (String × PyVal))) (gen : Except String String) :
    (((statusesOf (systemOps fn gcsUpload ocr ext rcn gen)).all (fun s =>
        ["received", "processing", "processing_ocr", "processing_gemini_extract",
         "processing_reconciliation", "generating_report", "completed",
         "failed"].contains s))
      && ranksMonotone (statusesOf (systemOps fn gcsUpload ocr ext rcn gen))
      && failedTerminal (statusesOf (systemOps fn gcsUpload ocr ext rcn gen))) = true
    ∧ statusesOf (systemOps "f.pdf" (.error "upload boom") (.ok "txt") (.ok []) (.ok [])
        (.ok "/tmp/r.xlsx")) = ["received", "failed"]
    ∧ statusesOf (systemOps "f.pdf" (.ok "gs://b/x.pdf") (.error "ocr boom") (.ok [])
        (.ok []) (.ok "/tmp/r.xlsx"))
      = ["received", "received", "processing", "processing_ocr", "failed"]
    ∧ statusesOf (systemOps "f.pdf" (.ok "gs://b/x.pdf") (.ok "txt") (.ok []) (.ok [])
        (.error "render boom"))
      = ["received", "received", "processing", "processing_ocr",
         "processing_gemini_extract", "processing_reconciliation",
         "generating_report", "failed"] := by
  refine ⟨?_, rfl, rfl, rfl⟩
  cases gcsUpload with
  | error e =>
      rw [show statusesOf (systemOps fn (.error e) ocr ext rcn gen)
          = ["received", "failed"] from rfl]
      decide
  | ok uri =>
      cases ocr with
      | error e =>
          rw [show statusesOf (systemOps fn (.ok uri) (.error e) ext rcn gen)
              = ["received", "received", "processing", "processing_ocr", "failed"] from rfl]
          decide
      | ok t =>
          cases ext with
          | error e =>
              rw [show statusesOf (systemOps fn (.ok uri) (.ok t) (.error e) rcn gen)
                  = ["received", "received", "processing", "processing_ocr",
                     "processing_gemini_extract", "failed"] from rfl]
              decide
          | ok fs =>
              cases rcn with
              | error e =>
                  rw [show statusesOf (systemOps fn (.ok uri) (.ok t) (.ok fs) (.error e) gen)
                      = ["received", "received", "processing", "processing_ocr",
                         "processing_gemini_extract", "processing_reconciliation",
                         "failed"] from rfl]
                  decide
              | ok rfs =>
                  cases gen with
                  | error e =>
                      rw [show statusesOf (systemOps fn (.ok uri) (.ok t) (.ok fs)
                            (.ok rfs) (.error e))
                          = ["received", "received", "processing", "processing_ocr",
                             "processing_gemini_extract", "processing_reconciliation",
                             "generating_report", "failed"] from rfl]
                      decide
                  | ok path =>
                      rw [show statusesOf (systemOps fn (.ok uri) (.ok t) (.ok fs)
                            (.ok rfs) (.ok path))
                          = ["received", "received", "processing", "processing_ocr",
                             "processing_gemini_extract", "processing_reconciliation",
                             "generating_report", "completed"] from rfl]
                      decide

end Pdf2Any
